import Mathlib

/-!
Verification of `Config::from_env` from `src/azure/storage/config.rs`.

The Rust function merges a seed `Config` with values read from the process
environment (and, for the federated token, from a file named by an
environment variable).  We embed the environment as an injected read-only
lookup `String → Option String` and the file system as a lookup
`String → Option String` (`none` models a failed `fs::read_to_string`,
whose error `unwrap_or_default` coerces to the empty string).
-/

namespace Reqsign

/-- `Config` carries all the configuration for Azure Storage services
(struct `Config` in `src/azure/storage/config.rs`; every field is
`Option<String>`). -/
structure Config where
  account_name : Option String
  account_key : Option String
  sas_token : Option String
  object_id : Option String
  client_id : Option String
  msi_res_id : Option String
  msi_secret : Option String
  endpoint : Option String
  federated_token : Option String
  tenant_id : Option String
  authority_host : Option String
deriving DecidableEq, Repr

/-- Env-key constant `AZURE_FEDERATED_TOKEN` from the source. -/
def AZURE_FEDERATED_TOKEN : String := "AZURE_FEDERATED_TOKEN"

/-- Env-key constant `AZURE_FEDERATED_TOKEN_FILE` from the source. -/
def AZURE_FEDERATED_TOKEN_FILE : String := "AZURE_FEDERATED_TOKEN_FILE"

/-- Env-key constant `AZURE_TENANT_ID` from the source; its value is the
string "AZURE_TENANT_ID_ENV_KEY". -/
def AZURE_TENANT_ID : String := "AZURE_TENANT_ID_ENV_KEY"

/-- Env-key constant `AZURE_AUTHORITY_HOST_ENV_KEY` from the source. -/
def AZURE_AUTHORITY_HOST_ENV_KEY : String := "AZURE_AUTHORITY_HOST_ENV_KEY"

/-- Default authority host `AZURE_PUBLIC_CLOUD` from the source. -/
def AZURE_PUBLIC_CLOUD : String := "https://login.microsoftonline.com"

/-- Embedding of `Config::from_env`.  `envs` is the environment lookup
(the `HashMap` collected from `env::vars()`); `rf` is the file-system
read (`fs::read_to_string`), with `none` standing for a read error so
that `(rf v).getD ""` is `fs::read_to_string(v).unwrap_or_default()`.
The four sequential `let`s mirror the four sequential `if let` blocks
mutating `self` in the Rust body. -/
def Config.from_env (envs rf : String → Option String) (c : Config) : Config :=
  let c1 :=
    match envs AZURE_FEDERATED_TOKEN_FILE with
    | some v => { c with federated_token := some ((rf v).getD "") }
    | none => c
  let c2 :=
    match envs AZURE_FEDERATED_TOKEN with
    | some v => { c1 with federated_token := some v }
    | none => c1
  let c3 :=
    match envs AZURE_TENANT_ID with
    | some v => { c2 with tenant_id := some v }
    | none => c2
  match envs AZURE_AUTHORITY_HOST_ENV_KEY with
  | some v => { c3 with authority_host := some v }
  | none => { c3 with authority_host := some AZURE_PUBLIC_CLOUD }

/-- The all-absent configuration (Rust `Config::default()`). -/
def emptyConfig : Config :=
  ⟨none, none, none, none, none, none, none, none, none, none, none⟩

/-- A seed whose `federated_token` is already present. -/
def seedPreset : Config := { emptyConfig with federated_token := some "preexisting" }

/-- A seed whose `tenant_id` is already present. -/
def seedTenant : Config := { emptyConfig with tenant_id := some "preexisting" }

/-- Concrete environment: only the token-file variable is set. -/
def envFileOnly : String → Option String := fun k =>
  if k = "AZURE_FEDERATED_TOKEN_FILE" then some "/var/run/token" else none

/-- Concrete environment: both federated-token variables are set. -/
def envBoth : String → Option String := fun k =>
  if k = "AZURE_FEDERATED_TOKEN_FILE" then some "/var/run/token"
  else if k = "AZURE_FEDERATED_TOKEN" then some "tok-direct"
  else none

/-- Concrete environment: only the direct federated-token variable is set. -/
def envDirectOnly : String → Option String := fun k =>
  if k = "AZURE_FEDERATED_TOKEN" then some "tok-direct" else none

/-- Concrete environment: only the tenant-id variable is set. -/
def envTenant : String → Option String := fun k =>
  if k = "AZURE_TENANT_ID_ENV_KEY" then some "tenant-123" else none

/-- Concrete file system: the token file reads successfully, with a
trailing newline in its contents. -/
def readOk : String → Option String := fun p =>
  if p = "/var/run/token" then some "tok-from-file\n" else none

/-- Concrete file system on which every read fails. -/
def readFail : String → Option String := fun _ => none

/-- Claim C1: `from_env` leaves `account_name`, `account_key`, `sas_token`,
`object_id`, `client_id`, `msi_res_id`, `msi_secret` and `endpoint` exactly
equal to their seed values, for every seed, environment and file system. -/
theorem from_env_frame (envs rf : String → Option String) (c : Config) :
    (Config.from_env envs rf c).account_name = c.account_name ∧
    (Config.from_env envs rf c).account_key = c.account_key ∧
    (Config.from_env envs rf c).sas_token = c.sas_token ∧
    (Config.from_env envs rf c).object_id = c.object_id ∧
    (Config.from_env envs rf c).client_id = c.client_id ∧
    (Config.from_env envs rf c).msi_res_id = c.msi_res_id ∧
    (Config.from_env envs rf c).msi_secret = c.msi_secret ∧
    (Config.from_env envs rf c).endpoint = c.endpoint := by
  cases h1 : envs AZURE_FEDERATED_TOKEN_FILE <;>
  cases h2 : envs AZURE_FEDERATED_TOKEN <;>
  cases h3 : envs AZURE_TENANT_ID <;>
  cases h4 : envs AZURE_AUTHORITY_HOST_ENV_KEY <;>
  simp [Config.from_env, h1, h2, h3, h4]

/-- Claim C2: after `from_env` the `authority_host` field is always present:
it equals the value of `AZURE_AUTHORITY_HOST_ENV_KEY` when that variable is
set and the fixed default `https://login.microsoftonline.com` otherwise,
regardless of the seed's `authority_host`. -/
theorem from_env_authority_host (envs rf : String → Option String) (c : Config) :
    (Config.from_env envs rf c).authority_host
      = some ((envs AZURE_AUTHORITY_HOST_ENV_KEY).getD AZURE_PUBLIC_CLOUD) := by
  cases h1 : envs AZURE_FEDERATED_TOKEN_FILE <;>
  cases h2 : envs AZURE_FEDERATED_TOKEN <;>
  cases h3 : envs AZURE_TENANT_ID <;>
  cases h4 : envs AZURE_AUTHORITY_HOST_ENV_KEY <;>
  simp [Config.from_env, h1, h2, h3, h4]

/-- Claim C3: when both `AZURE_FEDERATED_TOKEN_FILE` and
`AZURE_FEDERATED_TOKEN` are set, the resolved `federated_token` equals the
direct variable's value: the direct check runs after the file check and
overwrites its assignment. -/
theorem from_env_direct_overrides_file (envs rf : String → Option String)
    (c : Config) (p t : String)
    (hp : envs AZURE_FEDERATED_TOKEN_FILE = some p)
    (ht : envs AZURE_FEDERATED_TOKEN = some t) :
    (Config.from_env envs rf c).federated_token = some t := by
  cases h3 : envs AZURE_TENANT_ID <;>
  cases h4 : envs AZURE_AUTHORITY_HOST_ENV_KEY <;>
  simp [Config.from_env, hp, ht, h3, h4]

/-- Witness for C3 at a concrete seed, environment and file system. -/
theorem from_env_direct_overrides_file_witness :
    (Config.from_env envBoth readOk emptyConfig).federated_token = some "tok-direct" :=
  from_env_direct_overrides_file envBoth readOk emptyConfig "/var/run/token"
    "tok-direct" (by decide) (by decide)

/-- Claim C4: when `AZURE_FEDERATED_TOKEN_FILE` is set but the file read
fails and `AZURE_FEDERATED_TOKEN` is unset, resolution still completes and
the resolved `federated_token` is the empty string (the read error is
coerced by `unwrap_or_default`, not propagated). -/
theorem from_env_file_error_masked (envs rf : String → Option String)
    (c : Config) (p : String)
    (hp : envs AZURE_FEDERATED_TOKEN_FILE = some p)
    (hr : rf p = none)
    (ht : envs AZURE_FEDERATED_TOKEN = none) :
    (Config.from_env envs rf c).federated_token = some "" := by
  cases h3 : envs AZURE_TENANT_ID <;>
  cases h4 : envs AZURE_AUTHORITY_HOST_ENV_KEY <;>
  simp [Config.from_env, hp, hr, ht, h3, h4]

/-- Witness for C4 at a concrete seed, environment and failing file read. -/
theorem from_env_file_error_masked_witness :
    (Config.from_env envFileOnly readFail emptyConfig).federated_token = some "" :=
  from_env_file_error_masked envFileOnly readFail emptyConfig "/var/run/token"
    (by decide) rfl (by decide)

/-- Counterexample to C5 as stated: with the seed's `federated_token`
preset to "preexisting" and `AZURE_FEDERATED_TOKEN` set to "tok-direct",
the resolved `federated_token` is "tok-direct", not the seed's value. -/
theorem seed_federated_not_kept_counterexample :
    (Config.from_env envDirectOnly readFail seedPreset).federated_token
        ≠ some "preexisting" ∧
    (Config.from_env envDirectOnly readFail seedPreset).federated_token
        = some "tok-direct" := by
  decide

/-- Claim C5 (amended): the direct environment variable
`AZURE_FEDERATED_TOKEN` overwrites a pre-set seed `federated_token`; the
resolved value is the direct variable when set, else the file contents
when `AZURE_FEDERATED_TOKEN_FILE` is set, and only otherwise the seed's
pre-set value. -/
theorem from_env_federated_precedence (envs rf : String → Option String)
    (c : Config) (s : String)
    (hc : c.federated_token = some s) :
    (Config.from_env envs rf c).federated_token
      = some ((envs AZURE_FEDERATED_TOKEN).getD
          (match envs AZURE_FEDERATED_TOKEN_FILE with
           | some p => (rf p).getD ""
           | none => s)) := by
  cases h1 : envs AZURE_FEDERATED_TOKEN_FILE <;>
  cases h2 : envs AZURE_FEDERATED_TOKEN <;>
  cases h3 : envs AZURE_TENANT_ID <;>
  cases h4 : envs AZURE_AUTHORITY_HOST_ENV_KEY <;>
  simp [Config.from_env, h1, h2, h3, h4, hc]

/-- Witness for the amended C5: with the seed preset and the direct
variable set, the direct variable wins. -/
theorem from_env_federated_precedence_witness :
    (Config.from_env envDirectOnly readFail seedPreset).federated_token
      = some "tok-direct" := by
  rw [from_env_federated_precedence envDirectOnly readFail seedPreset
    "preexisting" rfl]
  decide

/-- Claim C6: when `AZURE_TENANT_ID_ENV_KEY` is set, the resolved
`tenant_id` equals its value, overwriting any seed value with no presence
check on the seed. -/
theorem from_env_tenant_overrides (envs rf : String → Option String)
    (c : Config) (t : String)
    (ht : envs AZURE_TENANT_ID = some t) :
    (Config.from_env envs rf c).tenant_id = some t := by
  cases h1 : envs AZURE_FEDERATED_TOKEN_FILE <;>
  cases h2 : envs AZURE_FEDERATED_TOKEN <;>
  cases h4 : envs AZURE_AUTHORITY_HOST_ENV_KEY <;>
  simp [Config.from_env, h1, h2, ht, h4]

/-- Witness for C6: a seed with `tenant_id` preset to "preexisting" is
overridden by `AZURE_TENANT_ID_ENV_KEY="tenant-123"`. -/
theorem from_env_tenant_overrides_witness :
    (Config.from_env envTenant readFail seedTenant).tenant_id = some "tenant-123" :=
  from_env_tenant_overrides envTenant readFail seedTenant "tenant-123" (by decide)

/-- Claim C7: `from_env` is idempotent for a fixed environment and fixed
file contents: resolving an already-resolved configuration again yields
the same configuration. -/
theorem from_env_idempotent (envs rf : String → Option String) (c : Config) :
    Config.from_env envs rf (Config.from_env envs rf c)
      = Config.from_env envs rf c := by
  cases c
  cases h1 : envs AZURE_FEDERATED_TOKEN_FILE <;>
  cases h2 : envs AZURE_FEDERATED_TOKEN <;>
  cases h3 : envs AZURE_TENANT_ID <;>
  cases h4 : envs AZURE_AUTHORITY_HOST_ENV_KEY <;>
  simp [Config.from_env, h1, h2, h3, h4]

/-- Claim C8: `from_env` is deterministic: two runs with equal seeds,
equal environment mappings and equal file contents produce identical
resolved configurations. -/
theorem from_env_deterministic (e1 e2 r1 r2 : String → Option String)
    (c1 c2 : Config) (he : e1 = e2) (hr : r1 = r2) (hc : c1 = c2) :
    Config.from_env e1 r1 c1 = Config.from_env e2 r2 c2 := by
  rw [he, hr, hc]

/-- Witness for C8 at concrete equal inputs. -/
theorem from_env_deterministic_witness :
    Config.from_env envBoth readOk emptyConfig
      = Config.from_env envBoth readOk emptyConfig :=
  from_env_deterministic envBoth envBoth readOk readOk emptyConfig emptyConfig
    rfl rfl rfl

/-- Claim C9: when `AZURE_FEDERATED_TOKEN_FILE` is set,
`AZURE_FEDERATED_TOKEN` is unset and the file read succeeds, the resolved
`federated_token` equals the file's full contents exactly as read (no
trimming: the read string, newline and all, is assigned verbatim). -/
theorem from_env_file_contents_exact (envs rf : String → Option String)
    (c : Config) (p s : String)
    (hp : envs AZURE_FEDERATED_TOKEN_FILE = some p)
    (hr : rf p = some s)
    (ht : envs AZURE_FEDERATED_TOKEN = none) :
    (Config.from_env envs rf c).federated_token = some s := by
  cases h3 : envs AZURE_TENANT_ID <;>
  cases h4 : envs AZURE_AUTHORITY_HOST_ENV_KEY <;>
  simp [Config.from_env, hp, hr, ht, h3, h4]

/-- Witness for C9: the file contents carry a trailing newline and the
resolved token keeps it. -/
theorem from_env_file_contents_exact_witness :
    (Config.from_env envFileOnly readOk emptyConfig).federated_token
      = some "tok-from-file\n" :=
  from_env_file_contents_exact envFileOnly readOk emptyConfig "/var/run/token"
    "tok-from-file\n" (by decide) (by decide) (by decide)

/-- Claim C10: whenever `AZURE_FEDERATED_TOKEN_FILE` is set the resolved
`federated_token` is present, never absent; and a failed file read yields
a configuration identical to the one obtained when the file deliberately
contains the empty string. -/
theorem from_env_file_key_gives_present (envs rf : String → Option String)
    (c : Config) (p : String)
    (hp : envs AZURE_FEDERATED_TOKEN_FILE = some p) :
    ((Config.from_env envs rf c).federated_token).isSome = true ∧
    (rf p = none →
      Config.from_env envs rf c
        = Config.from_env envs (fun q => if q = p then some "" else rf q) c) := by
  constructor
  · cases h2 : envs AZURE_FEDERATED_TOKEN <;>
    cases h3 : envs AZURE_TENANT_ID <;>
    cases h4 : envs AZURE_AUTHORITY_HOST_ENV_KEY <;>
    simp [Config.from_env, hp, h2, h3, h4]
  · intro hr
    cases c
    cases h2 : envs AZURE_FEDERATED_TOKEN <;>
    cases h3 : envs AZURE_TENANT_ID <;>
    cases h4 : envs AZURE_AUTHORITY_HOST_ENV_KEY <;>
    simp [Config.from_env, hp, hr, h2, h3, h4]

/-- Witness for C10 at a concrete environment with the file variable set
and a failing read. -/
theorem from_env_file_key_gives_present_witness :
    ((Config.from_env envFileOnly readFail emptyConfig).federated_token).isSome
        = true ∧
    (readFail "/var/run/token" = none →
      Config.from_env envFileOnly readFail emptyConfig
        = Config.from_env envFileOnly
            (fun q => if q = "/var/run/token" then some "" else readFail q)
            emptyConfig) :=
  from_env_file_key_gives_present envFileOnly readFail emptyConfig
    "/var/run/token" (by decide)

end Reqsign
